import Mathlib

/-!
Verification of the security-detection core of Microsort-Reward-AutoBot.

The definitions below are a shallow embedding of
`src/functions/login/SecurityDetector.ts` (pattern table, probing loop,
`detectSignInBlocked`, `checkAccountLocked`) and of the fingerprint
validation gate in `src/browser/Browser.ts` (`createBrowser`).
Collaborators that live outside the embedded sources (the alert
dispatcher, the fleet coordinator reached through `engageGlobalStandby`,
`SecurityUtils`) are modelled from the specification and are marked as
such in their doc comments.

Page interaction is modelled by an environment value (`PageEnv`) that
records, for each of the four probed selectors, whether the selector wait
resolved and what `textContent()` returned or whether it rejected, plus
the outcomes of the best-effort collaborator calls.  Side effects are
collected in an explicit `Trace`.
-/

set_option autoImplicit false

namespace AutoBot

/-- ASCII apostrophe, written by code point to keep literals plain. -/
def apos : Char := Char.ofNat 39

/-- Typographic right single quotation mark, one of the alternatives in the
first sign-in-block pattern. -/
def rquote : Char := Char.ofNat 8217

/-- Backquote character, the third alternative in the first pattern. -/
def bquote : Char := Char.ofNat 96

/-- `leadMatch n h` holds when the needle `n` is an initial segment of `h`.
Helper for the substring semantics of the unanchored regular expressions in
`SIGN_IN_BLOCK_PATTERNS`. -/
def leadMatch : List Char → List Char → Bool
  | [], _ => true
  | _ :: _, [] => false
  | a :: as, b :: bs => a == b && leadMatch as bs

/-- `subMatch n h` holds when the needle `n` occurs contiguously anywhere in
`h`: the matching semantics of an unanchored literal regular expression. -/
def subMatch (n : List Char) : List Char → Bool
  | [] => leadMatch n []
  | c :: rest => leadMatch n (c :: rest) || subMatch n rest

/-- One rule of the pattern table: a set of literal alternatives (the only
regex feature used by the source is a single optional character, expanded
here into explicit alternatives) together with its label. -/
structure BlockPattern where
  alts : List (List Char)
  label : String
deriving DecidableEq

/-- The alternatives of the first source pattern
`/we can['’`]?t sign you in/i`: the optional character class is expanded
into the four literal variants. -/
def cantAlts : List (List Char) :=
  [("we can".toList ++ "t sign you in".toList),
   ("we can".toList ++ [apos] ++ "t sign you in".toList),
   ("we can".toList ++ [rquote] ++ "t sign you in".toList),
   ("we can".toList ++ [bquote] ++ "t sign you in".toList)]

/-- The fixed, ordered pattern table
`SecurityDetector.SIGN_IN_BLOCK_PATTERNS` (source lines 11-17). -/
def SIGN_IN_BLOCK_PATTERNS : List BlockPattern :=
  [⟨cantAlts, "cant-sign-in"⟩,
   ⟨["incorrect account or password too many times".toList], "too-many-incorrect"⟩,
   ⟨["used an incorrect account or password too many times".toList], "too-many-incorrect-variant"⟩,
   ⟨["sign-in has been blocked".toList], "sign-in-blocked-phrase"⟩,
   ⟨["your account has been locked".toList], "account-locked"⟩]

/-- `p.re.test(lower)`: a rule matches when any of its literal alternatives
occurs in the text. -/
def pmatch (p : BlockPattern) (text : List Char) : Bool :=
  p.alts.any (fun n => subMatch n text)

/-- The classification loop of `detectSignInBlocked` (source line 37): scan
the table in order, the first rule whose pattern matches wins, no match
yields `none`. -/
def classify (text : List Char) : Option String :=
  (SIGN_IN_BLOCK_PATTERNS.find? (fun p => pmatch p text)).map BlockPattern.label

/-- The mutable bot fields read and written by the detector: the
compromised flags on `MicrosoftRewardsBot` and the current account email. -/
structure BotState where
  compromisedModeActive : Bool
  compromisedReason : Option String
  currentAccountEmail : Option String
deriving DecidableEq

/-- Outcome of `el.textContent()` on a found element: a string, `null`, or a
rejected promise (for example after the page navigated away). -/
inductive TextContentResult where
  | ok (t : Option String)
  | err
deriving DecidableEq

/-- Outcome of `page.waitForSelector(sel, { timeout: 600 }).catch(() => null)`
for one selector: either the wait rejected (missing selector, timeout,
navigation) and the per-probe catch produced `null`, or an element was found
and reading its text gave `tc`. -/
inductive ProbeOutcome where
  | absent
  | found (tc : TextContentResult)
deriving DecidableEq

/-- The page-and-collaborator environment a single detector call runs in:
one probe outcome per selector of `SELECTORS` (in order), whether the
hard-lock fragment `#serviceAbuseLandingTitle` is present, and whether each
best-effort collaborator call succeeds. -/
structure PageEnv where
  p0 : ProbeOutcome
  p1 : ProbeOutcome
  p2 : ProbeOutcome
  p3 : ProbeOutcome
  lockedPresent : Bool
  alertDelivered : Bool
  standbyOk : Bool
  docsOk : Bool
deriving DecidableEq

/-- The probe outcomes in the order the source loop visits the selectors. -/
def probesList (env : PageEnv) : List ProbeOutcome :=
  [env.p0, env.p1, env.p2, env.p3]

/-- The `SecurityIncident` record built on a confirmed match
(source lines 41-47). -/
structure SecurityIncident where
  kind : String
  account : String
  details : List String
  next : List String
  docsUrl : String
deriving DecidableEq

/-- Trace of the observable side effects of one detector call: alerts handed
to the dispatcher (with severity), calls to `engageGlobalStandby`
(reason, account), docs tabs opened, compromised-interval starts, and log
lines. -/
structure Trace where
  alerts : List (SecurityIncident × String)
  standbyCalls : List (String × String)
  docsOpens : List String
  intervalStarts : Nat
  logs : List String
deriving DecidableEq

/-- The empty trace: no side effects. -/
def Trace.empty : Trace := ⟨[], [], [], 0, []⟩

/-- The four heading selectors probed by `detectSignInBlocked`
(source line 28), in loop order. -/
def SELECTORS : List String :=
  ["[data-testid=\"title\"]", "h1", "div[role=\"heading\"]", "div.text-title"]

/-- Per-selector wait timeout in `detectSignInBlocked` (source line 29). -/
def PROBE_TIMEOUT_MS : Nat := 600

/-- Wait timeout of the hard-lock check (source line 60). -/
def LOCK_TIMEOUT_MS : Nat := 1200

/-- The detector's reason string stored in `compromisedReason`. -/
def signInBlockedReason : String := "sign-in-blocked"

/-- The incident kind string of source line 42. -/
def incidentKind : String := "We can" ++ apos.toString ++ "t sign you in (blocked)"

/-- Message of the error thrown by `checkAccountLocked` (source line 63). -/
def lockedErrorMsg : String := "Account locked by Microsoft - please review account status"

/-- Log line emitted by `checkAccountLocked` before throwing (source line 62). -/
def lockedLogMsg : String := "Account locked by Microsoft (serviceAbuseLandingTitle)"

/-- Modelled from the spec: `SecurityUtils.getDocsUrl` is not under the
embedded sources; per the spec an incident carries a reference link derived
from its slug. -/
def getDocsUrl (slug : String) : String := "security-docs/" ++ slug

/-- JavaScript `.trim()` on the probed text (source line 31). -/
def trimChars (l : List Char) : List Char :=
  ((l.dropWhile Char.isWhitespace).reverse.dropWhile Char.isWhitespace).reverse

/-- Contribution of one probe to the aggregated text (source lines 29-33):
a failed wait contributes nothing; a `null` or empty-after-trim text
contributes nothing; a trimmed text of fewer than 300 characters contributes
a space followed by itself; a `textContent()` rejection escapes to the
surrounding handler. -/
def contrib : ProbeOutcome → Except Unit (List Char)
  | ProbeOutcome.absent => Except.ok []
  | ProbeOutcome.found TextContentResult.err => Except.error ()
  | ProbeOutcome.found (TextContentResult.ok t) =>
    let tt := trimChars ((t.getD "").toList)
    if tt = [] then Except.ok []
    else if tt.length < 300 then Except.ok (' ' :: tt)
    else Except.ok []

/-- The probing loop (source lines 27-34): visit the probes in order,
concatenating contributions; a `textContent()` rejection aborts the loop
with an exception. -/
def aggregateTexts : List ProbeOutcome → Except Unit (List Char)
  | [] => Except.ok []
  | p :: ps =>
    match contrib p with
    | Except.error e => Except.error e
    | Except.ok c =>
      match aggregateTexts ps with
      | Except.error e => Except.error e
      | Except.ok rest => Except.ok (c ++ rest)

/-- The fast-path condition of source line 25:
`this.bot.compromisedModeActive && this.bot.compromisedReason === 'sign-in-blocked'`.
Note that no account is consulted. -/
def fastPath (s : BotState) : Bool :=
  s.compromisedModeActive && s.compromisedReason == some signInBlockedReason

/-- `this.bot.currentAccountEmail || 'unknown'` (source line 39): JavaScript
falsiness maps both a missing and an empty email to `"unknown"`. -/
def emailOrUnknown (s : BotState) : String :=
  match s.currentAccountEmail with
  | none => "unknown"
  | some e => if e.isEmpty then "unknown" else e

/-- The incident record of source lines 41-47. -/
def mkIncident (email lbl : String) : SecurityIncident :=
  { kind := incidentKind
    account := email
    details := ["Pattern: " ++ lbl]
    next := ["Manual recovery required before continuing"]
    docsUrl := getDocsUrl "we-cant-sign-you-in" }

/-- The flag mutation of source lines 49-50. -/
def setCompromised (s : BotState) : BotState :=
  { s with compromisedModeActive := true, compromisedReason := some signInBlockedReason }

/-- Side effects of the confirmed-match branch (source lines 48-54): one
alert handed to the dispatcher, one compromised-interval start, one
`engageGlobalStandby` call and one docs-tab attempt, both best-effort with
their failures caught and logged.  The dispatcher itself is modelled from
the spec: `SecurityUtils.sendIncidentAlert` is not under the embedded
sources and per the spec never propagates an error, so a failed delivery
only yields a log line. -/
def confirmTrace (env : PageEnv) (email lbl : String) : Trace :=
  { alerts := [(mkIncident email lbl, "warn")]
    standbyCalls := [(signInBlockedReason, email)]
    docsOpens := if env.docsOk then [getDocsUrl "we-cant-sign-you-in"] else []
    intervalStarts := 1
    logs :=
      (if env.alertDelivered then [] else ["incident alert delivery failed"]) ++
      (if env.standbyOk then [] else ["Global standby engagement failed"]) ++
      (if env.docsOk then [] else ["Failed to open docs tab"]) }

/-- The no-match / match continuation after classification
(source lines 38-55). -/
def detectMatch (env : PageEnv) (s : BotState) : Option String → Bool × BotState × Trace
  | none => (false, s, Trace.empty)
  | some lbl => (true, setCompromised s, confirmTrace env (emailOrUnknown s) lbl)

/-- The body of the `try` block of `detectSignInBlocked`
(source lines 26-55): aggregate the probed texts (a `textContent()`
rejection escapes), lowercase, classify, and on a match perform the
confirmation step. -/
def detectBody (env : PageEnv) (s : BotState) : Except Unit (Bool × BotState × Trace) :=
  match aggregateTexts (probesList env) with
  | Except.error e => Except.error e
  | Except.ok text => Except.ok (detectMatch env s (classify (text.map Char.toLower)))

/-- `SecurityDetector.detectSignInBlocked` (source lines 24-57): the fast
path short-circuits before the `try` block; the surrounding `catch` maps any
escaped exception to `false` with no state change and no side effect. -/
def detectSignInBlocked (env : PageEnv) (s : BotState) : Bool × BotState × Trace :=
  if fastPath s = true then (true, s, Trace.empty)
  else
    match detectBody env s with
    | Except.ok r => r
    | Except.error _ => (false, s, Trace.empty)

/-- `SecurityDetector.checkAccountLocked` (source lines 59-65): when the
hard-lock fragment is present, log one line and throw the fatal error;
otherwise do nothing.  No alert, no standby call, no flag mutation. -/
def checkAccountLocked (env : PageEnv) (s : BotState) :
    Except String Unit × BotState × Trace :=
  if env.lockedPresent then
    (Except.error lockedErrorMsg, s, { Trace.empty with logs := [lockedLogMsg] })
  else
    (Except.ok (), s, Trace.empty)

/-- Sequential runs of the detector (used to state idempotence across any
number of later calls): thread the bot state through a list of page
environments, collecting each call's result and trace. -/
def runSeq : List PageEnv → BotState → List (Bool × Trace) × BotState
  | [], s => ([], s)
  | e :: es, s =>
    let r := detectSignInBlocked e s
    let rest := runSeq es r.2.1
    ((r.1, r.2.2) :: rest.1, rest.2)

/-- The fleet-wide coordinator state of the spec:
Normal, Compromised(reason, account, since), GlobalStandby(since, account). -/
inductive CompromisedState where
  | Normal
  | Compromised (reason account : String) (since : Nat)
  | GlobalStandby (since : Nat) (triggeringAccount : String)
deriving DecidableEq

/-- Modelled from the spec: the `CompromisedStateCoordinator.reportIncident`
transition is not under the embedded sources (`engageGlobalStandby` lives in
`src/index.ts`, which is absent); per the spec the first report moves
Normal to Compromised, any further report while already Compromised or
GlobalStandby escalates to GlobalStandby, recording the new account for
audit and never downgrading. -/
def reportIncident (kind account : String) (now : Nat) :
    CompromisedState → CompromisedState
  | CompromisedState.Normal => CompromisedState.Compromised kind account now
  | CompromisedState.Compromised _ _ _ => CompromisedState.GlobalStandby now account
  | CompromisedState.GlobalStandby since _ => CompromisedState.GlobalStandby since account

/-- Modelled from the spec: the operator-only reset transition back to
Normal. -/
def resetCoordinator : CompromisedState := CompromisedState.Normal

/-- The escalation order Normal < Compromised < GlobalStandby as a rank. -/
def stateRank : CompromisedState → Nat
  | CompromisedState.Normal => 0
  | CompromisedState.Compromised _ _ _ => 1
  | CompromisedState.GlobalStandby _ _ => 2

/-- `ValidationResult` of the fingerprint validator: validity flag plus
ordered critical issues and warnings. -/
structure ValidationResult where
  valid : Bool
  criticalIssues : List String
  warnings : List String
deriving DecidableEq

/-- The `riskManagement` configuration section. -/
structure RiskManagement where
  stopOnCritical : Bool
deriving DecidableEq

/-- The slice of the bot configuration read by the validation gate; the
section is optional, matching the `?.` access in the source. -/
structure BotConfig where
  riskManagement : Option RiskManagement
deriving DecidableEq

/-- `this.bot.config.riskManagement?.stopOnCritical` (source
`Browser.ts` line 109): a missing section reads as `undefined`, which is
falsy. -/
def stopOnCriticalFlag (cfg : BotConfig) : Bool :=
  (cfg.riskManagement.map RiskManagement.stopOnCritical).getD false

/-- The fingerprint validation gate of `Browser.createBrowser`
(`Browser.ts` lines 104-111): after computing the validation result, throw
a typed error exactly when the result is invalid and `stopOnCritical` is
set; otherwise proceed. -/
def fingerprintGate (vr : ValidationResult) (email : String) (cfg : BotConfig) :
    Except String Unit :=
  if !vr.valid && stopOnCriticalFlag cfg then
    Except.error ("Fingerprint validation failed for " ++ email ++ ": " ++
      String.intercalate ", " vr.criticalIssues)
  else
    Except.ok ()

/-! ### Helper lemmas about `detectSignInBlocked` -/

theorem detect_of_fastPath {env : PageEnv} {s : BotState} (h : fastPath s = true) :
    detectSignInBlocked env s = (true, s, Trace.empty) := by
  unfold detectSignInBlocked
  rw [h]
  simp

theorem detect_of_body {env : PageEnv} {s : BotState} {r : Bool × BotState × Trace}
    (hf : fastPath s = false) (hb : detectBody env s = Except.ok r) :
    detectSignInBlocked env s = r := by
  unfold detectSignInBlocked
  rw [hf, hb]
  simp

theorem detect_of_bodyErr {env : PageEnv} {s : BotState}
    (hf : fastPath s = false) (hb : detectBody env s = Except.error ()) :
    detectSignInBlocked env s = (false, s, Trace.empty) := by
  unfold detectSignInBlocked
  rw [hf, hb]
  simp

theorem fastPath_setCompromised (s : BotState) : fastPath (setCompromised s) = true := rfl

theorem detectBody_cases (env : PageEnv) (s : BotState) :
    detectBody env s = Except.error () ∨
    detectBody env s = Except.ok (false, s, Trace.empty) ∨
    ∃ lbl, detectBody env s =
      Except.ok (true, setCompromised s, confirmTrace env (emailOrUnknown s) lbl) := by
  unfold detectBody
  cases aggregateTexts (probesList env) with
  | error e => exact Or.inl (by cases e; rfl)
  | ok text =>
    cases hc : classify (text.map Char.toLower) with
    | none => exact Or.inr (Or.inl (by simp [detectMatch, hc]))
    | some lbl => exact Or.inr (Or.inr ⟨lbl, by simp [detectMatch, hc]⟩)

theorem fastPath_eq_false {s : BotState} (h : ¬ fastPath s = true) : fastPath s = false := by
  cases hfp : fastPath s with
  | true => exact absurd hfp h
  | false => rfl

theorem detect_true_flags {env : PageEnv} {s : BotState}
    (h : (detectSignInBlocked env s).1 = true) :
    fastPath (detectSignInBlocked env s).2.1 = true := by
  by_cases hf : fastPath s = true
  · rw [detect_of_fastPath hf]
    exact hf
  · have hf' : fastPath s = false := fastPath_eq_false hf
    rcases detectBody_cases env s with hb | hb | ⟨lbl, hb⟩
    · rw [detect_of_bodyErr hf' hb] at h
      exact absurd h (by simp)
    · rw [detect_of_body hf' hb] at h
      exact absurd h (by simp)
    · rw [detect_of_body hf' hb]
      exact fastPath_setCompromised s

theorem runSeq_after_compromised (envs : List PageEnv) :
    ∀ s : BotState, fastPath s = true →
      (∀ r ∈ (runSeq envs s).1, r.1 = true ∧ r.2 = Trace.empty) ∧
      (runSeq envs s).2 = s := by
  induction envs with
  | nil =>
    intro s _
    exact ⟨fun r hr => absurd hr (List.not_mem_nil r), rfl⟩
  | cons e es ih =>
    intro s h
    have hd : detectSignInBlocked e s = (true, s, Trace.empty) := detect_of_fastPath h
    obtain ⟨h1, h2⟩ := ih s h
    simp only [runSeq, hd]
    refine ⟨?_, h2⟩
    intro r hr
    rcases List.mem_cons.mp hr with hr | hr
    · rw [hr]
      exact ⟨rfl, rfl⟩
    · exact h1 r hr

/-! ### First-match lemmas for `List.find?` -/

theorem find_eq_of_earliest {α : Type} (p : α → Bool) :
    ∀ (l : List α) (k : Nat) (hk : k < l.length),
      p (l.get ⟨k, hk⟩) = true →
      (∀ m (hm : m < l.length), m < k → p (l.get ⟨m, hm⟩) = false) →
      l.find? p = some (l.get ⟨k, hk⟩)
  | [], k, hk, _, _ => absurd hk (by simp)
  | a :: t, k, hk, hpk, hmin => by
    cases k with
    | zero =>
      have : p a = true := hpk
      simp [List.find?, this]
    | succ k' =>
      have ha : p a = false := hmin 0 (Nat.succ_pos _) (Nat.succ_pos _)
      have ih := find_eq_of_earliest p t k' (Nat.lt_of_succ_lt_succ hk) hpk
        (fun m hm hmk => hmin (m + 1) (Nat.succ_lt_succ hm) (Nat.succ_lt_succ hmk))
      simp [List.find?, ha, ih]

theorem exists_earliest {α : Type} (p : α → Bool) :
    ∀ (l : List α) (i : Nat) (hi : i < l.length), p (l.get ⟨i, hi⟩) = true →
      ∃ k, ∃ hk : k < l.length, k ≤ i ∧ p (l.get ⟨k, hk⟩) = true ∧
        ∀ m (hm : m < l.length), m < k → p (l.get ⟨m, hm⟩) = false
  | [], i, hi, _ => absurd hi (by simp)
  | a :: t, i, hi, hpi => by
    cases hpa : p a with
    | true =>
      exact ⟨0, Nat.succ_pos _, Nat.zero_le _, hpa,
        fun m hm hm0 => absurd hm0 (Nat.not_lt_zero m)⟩
    | false =>
      cases i with
      | zero => exact absurd hpi (by rw [show (a :: t).get ⟨0, hi⟩ = a from rfl, hpa]; simp)
      | succ i' =>
        obtain ⟨k, hk, hki, hpk, hmin⟩ :=
          exists_earliest p t i' (Nat.lt_of_succ_lt_succ hi) hpi
        refine ⟨k + 1, Nat.succ_lt_succ hk, Nat.succ_le_succ hki, hpk, ?_⟩
        intro m hm hmk
        cases m with
        | zero => exact hpa
        | succ m' => exact hmin m' (Nat.lt_of_succ_lt_succ hm) (Nat.lt_of_succ_lt_succ hmk)

/-! ### Concrete inputs used by witnesses and counterexamples -/

/-- A page with no heading probes resolving, no lock fragment, and all
collaborator calls succeeding. -/
def envBlank : PageEnv :=
  { p0 := ProbeOutcome.absent, p1 := ProbeOutcome.absent, p2 := ProbeOutcome.absent
    p3 := ProbeOutcome.absent, lockedPresent := false, alertDelivered := true
    standbyOk := true, docsOk := true }

/-- A blocked-sign-in heading as the service renders it, with the
typographic apostrophe. -/
def blockedHeading : String := "We can" ++ apos.toString ++ "t sign you in right now"

/-- A page whose first heading carries the blocked-sign-in message. -/
def envMatch : PageEnv :=
  { envBlank with p0 := ProbeOutcome.found (TextContentResult.ok (some blockedHeading)) }

/-- The locked variant of the blank page. -/
def envLocked : PageEnv := { envBlank with lockedPresent := true }

/-- A fresh bot state for account `b@x`. -/
def sFreshB : BotState := ⟨false, none, some "b@x"⟩

/-- A fresh bot state for a generic account. -/
def sFreshU : BotState := ⟨false, none, some "user@example.com"⟩

/-! ### C1 -/

/-- Claim C1: on every page where the hard-lock fragment
`#serviceAbuseLandingTitle` is present, `checkAccountLocked` raises
immediately: the result is the distinguished fatal `Except.error` carrying
the fixed lock message — an outcome no other detector path can produce,
since `detectSignInBlocked` only ever returns a boolean — and it does so
without reporting an incident, without dispatching any alert, without
starting the compromised interval, and without mutating the bot state; the
only side effect is one log line. -/
theorem checkAccountLocked_fatal (env : PageEnv) (s : BotState)
    (h : env.lockedPresent = true) :
    checkAccountLocked env s =
      (Except.error lockedErrorMsg, s, { Trace.empty with logs := [lockedLogMsg] }) ∧
    (checkAccountLocked env s).2.1 = s ∧
    (checkAccountLocked env s).2.2.alerts = [] ∧
    (checkAccountLocked env s).2.2.standbyCalls = [] ∧
    (checkAccountLocked env s).2.2.intervalStarts = 0 ∧
    (checkAccountLocked env s).2.2.docsOpens = [] ∧
    (checkAccountLocked env s).1 ≠ Except.ok () := by
  unfold checkAccountLocked
  rw [h]
  refine ⟨rfl, rfl, rfl, rfl, rfl, rfl, ?_⟩
  intro hx
  exact Except.noConfusion hx

/-- Witness for C1: the fatal raise on a concrete locked page. -/
theorem checkAccountLocked_fatal_witness :
    checkAccountLocked envLocked sFreshU =
      (Except.error lockedErrorMsg, sFreshU, { Trace.empty with logs := [lockedLogMsg] }) :=
  (checkAccountLocked_fatal envLocked sFreshU rfl).1

/-! ### C6 -/

/-- Claim C6: coordinator escalation is strictly monotonic with a distinct
intermediate state: a report from Normal yields Compromised (rank 1, never
GlobalStandby directly); a further report while Compromised or
GlobalStandby yields GlobalStandby; the escalation rank never decreases
under `reportIncident`; and only the operator reset returns to Normal. -/
theorem coordinator_escalation_monotonic (kind account : String) (now : Nat)
    (st : CompromisedState) :
    stateRank st ≤ stateRank (reportIncident kind account now st) ∧
    reportIncident kind account now CompromisedState.Normal =
      CompromisedState.Compromised kind account now ∧
    stateRank (reportIncident kind account now CompromisedState.Normal) = 1 ∧
    (st ≠ CompromisedState.Normal →
      ∃ since acct,
        reportIncident kind account now st = CompromisedState.GlobalStandby since acct) ∧
    resetCoordinator = CompromisedState.Normal := by
  refine ⟨?_, rfl, rfl, ?_, rfl⟩
  · cases st <;> simp [reportIncident, stateRank]
  · intro h
    cases st with
    | Normal => exact absurd rfl h
    | Compromised r a t => exact ⟨now, account, rfl⟩
    | GlobalStandby t a => exact ⟨t, account, rfl⟩

/-- Witness for C6: a second report (different account) while Compromised
escalates to GlobalStandby. -/
theorem coordinator_escalation_monotonic_witness :
    ∃ since acct,
      reportIncident "sign-in-blocked" "a@x" 7
          (CompromisedState.Compromised "sign-in-blocked" "b@x" 3) =
        CompromisedState.GlobalStandby since acct :=
  (coordinator_escalation_monotonic "sign-in-blocked" "a@x" 7
      (CompromisedState.Compromised "sign-in-blocked" "b@x" 3)).2.2.2.1 (by decide)

/-! ### C7 -/

/-- Claim C7: the fingerprint gate of `createBrowser` fails with its typed
error exactly when the validation result is invalid (critical issues) and
`riskManagement.stopOnCritical` is set; when the flag is unset or the
section is absent, session creation proceeds past the gate despite critical
issues. -/
theorem fingerprintGate_policy (vr : ValidationResult) (email : String)
    (cfg : BotConfig) :
    ((∃ m, fingerprintGate vr email cfg = Except.error m) ↔
      vr.valid = false ∧ stopOnCriticalFlag cfg = true) ∧
    (stopOnCriticalFlag cfg = false → fingerprintGate vr email cfg = Except.ok ()) := by
  cases hv : vr.valid <;> cases hs : stopOnCriticalFlag cfg <;>
    simp [fingerprintGate, hv, hs]

/-- Witness for C7: an invalid result aborts under a strict config and
passes under a lax one. -/
theorem fingerprintGate_policy_witness :
    (∃ m, fingerprintGate ⟨false, ["mobile/viewport mismatch"], []⟩ "user@example.com"
        ⟨some ⟨true⟩⟩ = Except.error m) ∧
    fingerprintGate ⟨false, ["mobile/viewport mismatch"], []⟩ "user@example.com"
        ⟨some ⟨false⟩⟩ = Except.ok () :=
  ⟨(fingerprintGate_policy ⟨false, ["mobile/viewport mismatch"], []⟩ "user@example.com"
      ⟨some ⟨true⟩⟩).1.mpr ⟨rfl, rfl⟩,
   (fingerprintGate_policy ⟨false, ["mobile/viewport mismatch"], []⟩ "user@example.com"
      ⟨some ⟨false⟩⟩).2 rfl⟩

/-! ### C3 -/

/-- Claim C3: classification over the fixed, ordered pattern table is
deterministic and first-match-wins: whenever two rules both match the
aggregated lowercase text, the result is the label of the earliest matching
rule, whose index is at most the smaller of the two; when no rule matches,
classification yields none and `detectSignInBlocked` returns false. -/
theorem classify_first_match_wins (text : List Char) :
    (∀ (i j : Nat) (hi : i < SIGN_IN_BLOCK_PATTERNS.length)
        (hj : j < SIGN_IN_BLOCK_PATTERNS.length), i < j →
      pmatch (SIGN_IN_BLOCK_PATTERNS.get ⟨i, hi⟩) text = true →
      pmatch (SIGN_IN_BLOCK_PATTERNS.get ⟨j, hj⟩) text = true →
      ∃ k, ∃ hk : k < SIGN_IN_BLOCK_PATTERNS.length, k ≤ i ∧
        pmatch (SIGN_IN_BLOCK_PATTERNS.get ⟨k, hk⟩) text = true ∧
        (∀ m (hm : m < SIGN_IN_BLOCK_PATTERNS.length), m < k →
          pmatch (SIGN_IN_BLOCK_PATTERNS.get ⟨m, hm⟩) text = false) ∧
        classify text = some (SIGN_IN_BLOCK_PATTERNS.get ⟨k, hk⟩).label) ∧
    ((∀ p ∈ SIGN_IN_BLOCK_PATTERNS, pmatch p text = false) → classify text = none) ∧
    (∀ (env : PageEnv) (s : BotState) (txt : List Char),
      fastPath s = false →
      aggregateTexts (probesList env) = Except.ok txt →
      classify (txt.map Char.toLower) = none →
      detectSignInBlocked env s = (false, s, Trace.empty)) := by
  refine ⟨?_, ?_, ?_⟩
  · intro i j hi hj _ hpi _
    obtain ⟨k, hk, hki, hpk, hmin⟩ :=
      exists_earliest (fun p => pmatch p text) SIGN_IN_BLOCK_PATTERNS i hi hpi
    refine ⟨k, hk, hki, hpk, hmin, ?_⟩
    unfold classify
    rw [find_eq_of_earliest (fun p => pmatch p text) SIGN_IN_BLOCK_PATTERNS k hk hpk hmin]
    rfl
  · intro h
    unfold classify
    rw [List.find?_eq_none.mpr (fun p hp => by rw [h p hp]; exact Bool.false_ne_true)]
    rfl
  · intro env s txt hf ha hc
    have hb : detectBody env s = Except.ok (false, s, Trace.empty) := by
      unfold detectBody
      rw [ha]
      show Except.ok (detectMatch env s (classify (txt.map Char.toLower))) = _
      rw [hc]
      rfl
    exact detect_of_body hf hb

/-- A heading matching both the second and the third table rule. -/
def overlapText : List Char :=
  "you used an incorrect account or password too many times".toList

/-- Witness for C3: on a heading matching rules 1 and 2 of the table, the
earlier rule decides the label. -/
theorem classify_first_match_wins_witness :
    ∃ k, ∃ hk : k < SIGN_IN_BLOCK_PATTERNS.length, k ≤ 1 ∧
      pmatch (SIGN_IN_BLOCK_PATTERNS.get ⟨k, hk⟩) overlapText = true ∧
      (∀ m (hm : m < SIGN_IN_BLOCK_PATTERNS.length), m < k →
        pmatch (SIGN_IN_BLOCK_PATTERNS.get ⟨m, hm⟩) overlapText = false) ∧
      classify overlapText = some (SIGN_IN_BLOCK_PATTERNS.get ⟨k, hk⟩).label :=
  (classify_first_match_wins overlapText).1 1 2 (by decide) (by decide) (by decide)
    (by decide) (by decide)

/-! ### C2 -/

/-- Bot state after the confirming call ran for account `b@x`, with the
worker then switched to account `a@x` while the compromised flags persist. -/
def sSwitched : BotState :=
  { (detectSignInBlocked envMatch sFreshB).2.1 with currentAccountEmail := some "a@x" }

/-- Counterexample to C2 as stated: the fast path does not require the
account of the compromised episode to match the calling worker's account.
The episode here was confirmed for `b@x` (the only account in the alert and
standby call of the confirming run); the worker then holds `a@x`, yet the
next call on a page with no incident text at all still short-circuits to
true with an empty trace — the fast path was taken although the episode's
account differs from the caller's. -/
theorem detect_fast_path_account_cex :
    (detectSignInBlocked envMatch sFreshB).1 = true ∧
    ((detectSignInBlocked envMatch sFreshB).2.2.alerts.map fun a => a.1.account) = ["b@x"] ∧
    ((detectSignInBlocked envMatch sFreshB).2.2.standbyCalls.map fun c => c.2) = ["b@x"] ∧
    sSwitched.currentAccountEmail = some "a@x" ∧
    ("a@x" : String) ≠ "b@x" ∧
    aggregateTexts (probesList envBlank) = Except.ok [] ∧
    classify [] = none ∧
    detectSignInBlocked envBlank sSwitched = (true, sSwitched, Trace.empty) :=
  ⟨rfl, rfl, rfl, rfl, by decide, rfl, rfl, rfl⟩

/-- C2 amended: the fast path of `detectSignInBlocked` tests only that
compromised mode is active with reason 'sign-in-blocked' — the account is
not consulted.  When the test holds, the call returns true immediately,
with no re-scan, no state change and no alert; when it fails, the call
falls through to the probe-and-classify body. -/
theorem detect_fast_path_amended (env : PageEnv) (s : BotState) :
    (s.compromisedModeActive = true → s.compromisedReason = some signInBlockedReason →
      detectSignInBlocked env s = (true, s, Trace.empty)) ∧
    (fastPath s = false →
      detectSignInBlocked env s =
        (match detectBody env s with
         | Except.ok r => r
         | Except.error _ => (false, s, Trace.empty))) := by
  constructor
  · intro h1 h2
    apply detect_of_fastPath
    unfold fastPath
    rw [h1, h2]
    simp
  · intro hf
    unfold detectSignInBlocked
    rw [hf]
    simp

/-- Witness for C2 (amended): the concrete switched-account state takes the
fast path. -/
theorem detect_fast_path_amended_witness :
    detectSignInBlocked envBlank sSwitched = (true, sSwitched, Trace.empty) :=
  (detect_fast_path_amended envBlank sSwitched).1 rfl rfl

/-! ### C4 -/

/-- Any probe whose contribution is empty is invisible to the aggregation:
removing it from the probe sequence leaves the aggregate unchanged. -/
theorem aggregate_skip {q : ProbeOutcome} (hq : contrib q = Except.ok []) :
    ∀ pre post, aggregateTexts (pre ++ q :: post) = aggregateTexts (pre ++ post) := by
  intro pre post
  induction pre with
  | nil =>
    show aggregateTexts (q :: post) = aggregateTexts post
    cases h : aggregateTexts post <;> simp [aggregateTexts, hq, h]
  | cons x xs ih =>
    simp only [List.cons_append, aggregateTexts, List.append_eq, ih]

/-- The page of `envMatch` whose second probe finds an element but whose
`textContent()` read rejects. -/
def envTextErr : PageEnv :=
  { envMatch with p1 := ProbeOutcome.found TextContentResult.err }

/-- Counterexample to C4 as stated: a `textContent()` rejection is a probing
error on a navigated-away page, yet it is not treated as a non-match for
that probe only — it escapes the loop to the surrounding handler, which
discards the already-aggregated first heading (a heading that matches a
rule) and returns false for the whole call, whereas the same page with that
probe merely failing its selector wait returns true.  (The call still
returns a boolean and never raises.) -/
theorem detect_probe_error_cex :
    detectSignInBlocked envTextErr sFreshU = (false, sFreshU, Trace.empty) ∧
    (detectSignInBlocked envMatch sFreshU).1 = true ∧
    envTextErr.p0 = envMatch.p0 ∧
    envTextErr.p2 = envMatch.p2 ∧
    envTextErr.p3 = envMatch.p3 ∧
    aggregateTexts (probesList envTextErr) = Except.error () :=
  ⟨rfl, rfl, rfl, rfl, rfl, rfl⟩

/-- C4 amended: a selector wait that fails (missing selector, timeout,
navigation during the wait) is swallowed per probe — such a probe
contributes nothing and the remaining probes still run; an error while
reading a found element's text instead aborts the whole scan and is caught
by the surrounding handler, so the call returns false with no state change
and no side effect.  In every case `detectSignInBlocked` returns a boolean
and never raises; only `checkAccountLocked` raises. -/
theorem detect_never_raises (env : PageEnv) (s : BotState) :
    (∀ pre post, aggregateTexts (pre ++ ProbeOutcome.absent :: post) =
      aggregateTexts (pre ++ post)) ∧
    (fastPath s = false → detectBody env s = Except.error () →
      detectSignInBlocked env s = (false, s, Trace.empty)) ∧
    (∃ b s2 tr, detectSignInBlocked env s = (b, s2, tr)) := by
  refine ⟨aggregate_skip rfl, ?_, ⟨_, _, _, rfl⟩⟩
  exact fun hf hb => detect_of_bodyErr hf hb

/-- Witness for C4 (amended): the concrete rejecting-read page yields false
without raising. -/
theorem detect_never_raises_witness :
    detectSignInBlocked envTextErr sFreshB = (false, sFreshB, Trace.empty) :=
  (detect_never_raises envTextErr sFreshB).2.1 rfl rfl

/-! ### C5 -/

/-- Claim C5: on a page whose probed heading text classifies to a rule of
the table, the detector builds the `SecurityIncident` for the current
account, hands exactly one alert to the dispatcher, reports the incident
(compromised flags plus the `engageGlobalStandby` call), attempts to open
the reference docs tab, and returns true.  The dispatcher is modelled from
the spec as never propagating an error (it returns success or failure), so
a failed alert delivery does not abort the flow: the call still returns
true with the same state transition, the failure being only logged. -/
theorem detect_confirm_flow (env : PageEnv) (s : BotState) (txt : List Char)
    (lbl : String)
    (hf : fastPath s = false)
    (ha : aggregateTexts (probesList env) = Except.ok txt)
    (hc : classify (txt.map Char.toLower) = some lbl) :
    detectSignInBlocked env s =
      (true, setCompromised s, confirmTrace env (emailOrUnknown s) lbl) ∧
    (detectSignInBlocked env s).2.2.alerts =
      [(mkIncident (emailOrUnknown s) lbl, "warn")] ∧
    (detectSignInBlocked env s).2.2.standbyCalls =
      [(signInBlockedReason, emailOrUnknown s)] ∧
    (env.docsOk = true →
      (detectSignInBlocked env s).2.2.docsOpens = [getDocsUrl "we-cant-sign-you-in"]) ∧
    (detectSignInBlocked { env with alertDelivered := false } s).1 = true ∧
    (detectSignInBlocked { env with alertDelivered := false } s).2.1 = setCompromised s := by
  have hbody : ∀ env2 : PageEnv, aggregateTexts (probesList env2) = Except.ok txt →
      detectBody env2 s =
        Except.ok (true, setCompromised s, confirmTrace env2 (emailOrUnknown s) lbl) := by
    intro env2 ha2
    unfold detectBody
    rw [ha2]
    show Except.ok (detectMatch env2 s (classify (txt.map Char.toLower))) = _
    rw [hc]
    rfl
  have hd := detect_of_body hf (hbody env ha)
  have hd' := detect_of_body hf (hbody { env with alertDelivered := false } ha)
  rw [hd, hd']
  refine ⟨rfl, rfl, rfl, ?_, rfl, rfl⟩
  intro hdocs
  simp [confirmTrace, hdocs]

/-- The text aggregated from the single matching heading of `envMatch`. -/
def aggMatchText : List Char := ' ' :: blockedHeading.toList

/-- Witness for C5: the whole confirmation flow on the concrete blocked
page. -/
theorem detect_confirm_flow_witness :
    detectSignInBlocked envMatch sFreshU =
      (true, setCompromised sFreshU,
        confirmTrace envMatch (emailOrUnknown sFreshU) "cant-sign-in") :=
  (detect_confirm_flow envMatch sFreshU aggMatchText "cant-sign-in" rfl rfl rfl).1

/-! ### C10 -/

/-- Claim C10: once a match is confirmed and the compromised flags are set,
a rejection of the global-standby engagement or of the docs-tab opening is
caught and only logged: the call still returns true, both compromised flags
remain set, the two failure log lines appear, and the boolean outcome is
the same as when both best-effort calls succeed. -/
theorem detect_best_effort_failures (env : PageEnv) (s : BotState) (txt : List Char)
    (lbl : String)
    (hf : fastPath s = false)
    (ha : aggregateTexts (probesList env) = Except.ok txt)
    (hc : classify (txt.map Char.toLower) = some lbl) :
    (detectSignInBlocked { env with standbyOk := false, docsOk := false } s).1 = true ∧
    (detectSignInBlocked { env with standbyOk := false, docsOk := false }
      s).2.1.compromisedModeActive = true ∧
    (detectSignInBlocked { env with standbyOk := false, docsOk := false }
      s).2.1.compromisedReason = some signInBlockedReason ∧
    "Global standby engagement failed" ∈
      (detectSignInBlocked { env with standbyOk := false, docsOk := false } s).2.2.logs ∧
    "Failed to open docs tab" ∈
      (detectSignInBlocked { env with standbyOk := false, docsOk := false } s).2.2.logs ∧
    (detectSignInBlocked { env with standbyOk := false, docsOk := false } s).1 =
      (detectSignInBlocked { env with standbyOk := true, docsOk := true } s).1 := by
  have hbody : ∀ env2 : PageEnv, aggregateTexts (probesList env2) = Except.ok txt →
      detectBody env2 s =
        Except.ok (true, setCompromised s, confirmTrace env2 (emailOrUnknown s) lbl) := by
    intro env2 ha2
    unfold detectBody
    rw [ha2]
    show Except.ok (detectMatch env2 s (classify (txt.map Char.toLower))) = _
    rw [hc]
    rfl
  have hd := detect_of_body hf (hbody { env with standbyOk := false, docsOk := false } ha)
  have hd' := detect_of_body hf (hbody { env with standbyOk := true, docsOk := true } ha)
  rw [hd, hd']
  refine ⟨rfl, rfl, rfl, ?_, ?_, rfl⟩
  · simp [confirmTrace]
  · simp [confirmTrace]

/-- Witness for C10: the concrete blocked page with both best-effort calls
failing still confirms. -/
theorem detect_best_effort_failures_witness :
    (detectSignInBlocked { envMatch with standbyOk := false, docsOk := false }
      sFreshB).1 = true :=
  (detect_best_effort_failures envMatch sFreshB aggMatchText "cant-sign-in" rfl rfl rfl).1

/-! ### C8 -/

/-- Claim C8: the detector is idempotent per confirmed incident and
deduplicates alerts per episode: a call hands the dispatcher at most one
alert; and after any call that returned true, every later call — on any
page, any number of calls, for as long as the flags are not externally
reset — takes the fast path and returns true with an empty trace, so no
further alert is dispatched for the episode. -/
theorem detect_idempotent_dedup (env1 : PageEnv) (s : BotState)
    (h : (detectSignInBlocked env1 s).1 = true) :
    (detectSignInBlocked env1 s).2.2.alerts.length ≤ 1 ∧
    (∀ env2, detectSignInBlocked env2 (detectSignInBlocked env1 s).2.1 =
      (true, (detectSignInBlocked env1 s).2.1, Trace.empty)) ∧
    (∀ envs, ∀ r ∈ (runSeq envs (detectSignInBlocked env1 s).2.1).1,
      r.1 = true ∧ r.2 = Trace.empty) := by
  have hflag := detect_true_flags h
  refine ⟨?_, ?_, ?_⟩
  · by_cases hf : fastPath s = true
    · rw [detect_of_fastPath hf]
      exact Nat.zero_le 1
    · have hf' := fastPath_eq_false hf
      rcases detectBody_cases env1 s with hb | hb | ⟨lbl, hb⟩
      · rw [detect_of_bodyErr hf' hb]
        exact Nat.zero_le 1
      · rw [detect_of_body hf' hb]
        exact Nat.zero_le 1
      · rw [detect_of_body hf' hb]
        exact Nat.le_refl 1
  · intro env2
    exact detect_of_fastPath hflag
  · intro envs
    exact (runSeq_after_compromised envs _ hflag).1

/-- Witness for C8: after the confirming call on the blocked page, a later
call on a blank page fast-paths with no further alert. -/
theorem detect_idempotent_dedup_witness :
    detectSignInBlocked envBlank (detectSignInBlocked envMatch sFreshB).2.1 =
      (true, (detectSignInBlocked envMatch sFreshB).2.1, Trace.empty) :=
  (detect_idempotent_dedup envMatch sFreshB rfl).2.1 envBlank

/-! ### C9 -/

/-- Claim C9: the probing loop visits the four selectors of `SELECTORS`
sequentially in that fixed order (the probe positions of `PageEnv` in
order), each with a 600 ms wait; a found heading's text contributes to the
aggregated classification text exactly when it is non-empty after trimming
and its trimmed length is strictly below 300 characters; a heading whose
trimmed text has 300 or more characters is silently excluded, and an
excluded heading leaves the aggregate — hence the classification — exactly
as if the probe were not there, so it can never trigger a match on its
own. -/
theorem probe_text_contribution (raw : String) :
    SELECTORS = ["[data-testid=\"title\"]", "h1", "div[role=\"heading\"]", "div.text-title"] ∧
    PROBE_TIMEOUT_MS = 600 ∧
    (∀ env : PageEnv, probesList env = [env.p0, env.p1, env.p2, env.p3]) ∧
    (300 ≤ (trimChars raw.toList).length →
      contrib (ProbeOutcome.found (TextContentResult.ok (some raw))) = Except.ok []) ∧
    (trimChars raw.toList ≠ [] → (trimChars raw.toList).length < 300 →
      contrib (ProbeOutcome.found (TextContentResult.ok (some raw))) =
        Except.ok (' ' :: trimChars raw.toList)) ∧
    (trimChars raw.toList = [] →
      contrib (ProbeOutcome.found (TextContentResult.ok (some raw))) = Except.ok []) ∧
    (∀ pre post,
      contrib (ProbeOutcome.found (TextContentResult.ok (some raw))) = Except.ok [] →
      aggregateTexts (pre ++ ProbeOutcome.found (TextContentResult.ok (some raw)) :: post) =
        aggregateTexts (pre ++ post)) := by
  have ceq : contrib (ProbeOutcome.found (TextContentResult.ok (some raw))) =
      (if trimChars raw.toList = [] then Except.ok []
       else if (trimChars raw.toList).length < 300 then
         Except.ok (' ' :: trimChars raw.toList)
       else Except.ok []) := rfl
  refine ⟨rfl, rfl, fun _ => rfl, ?_, ?_, ?_, ?_⟩
  · intro h300
    rw [ceq]
    by_cases he : trimChars raw.toList = []
    · rw [if_pos he]
    · rw [if_neg he, if_neg (Nat.not_lt.mpr h300)]
  · intro he hlen
    rw [ceq, if_neg he, if_pos hlen]
  · intro he
    rw [ceq, if_pos he]
  · intro pre post hq
    exact aggregate_skip hq pre post

/-- A 300-character heading text. -/
def longHeading : String := String.mk (List.replicate 300 'a')

set_option maxRecDepth 4000 in
/-- Witness for C9: a 300-character trimmed text contributes nothing while
a short text contributes a space and its trimmed self. -/
theorem probe_text_contribution_witness :
    contrib (ProbeOutcome.found (TextContentResult.ok (some longHeading))) = Except.ok [] ∧
    contrib (ProbeOutcome.found (TextContentResult.ok (some " Sign in "))) =
      Except.ok (' ' :: trimChars " Sign in ".toList) :=
  ⟨(probe_text_contribution longHeading).2.2.2.1 (by decide),
   (probe_text_contribution " Sign in ").2.2.2.2.1 (by decide) (by decide)⟩

end AutoBot
